import Mathlib

/-!
A shallow embedding of `utiltest.py`, a library for automated black-box
testing of command line utilities.  The embedding covers the experiment
engine (`TestBench`) and the temporary-resource manager (`TMPFileManager`).
Effects are made explicit: the child process result and the filesystem are
passed in as values, and every operation that can raise returns `Except`
or `Option`.
-/

/-- A Python runtime value as it can reach the test bench's dynamically
typed slots: `None`, a boolean, an integer, a text string, or a byte
string.  `PyVal.bytes s` stands for the UTF-8 encoding `s.encode("utf-8")`
of the text `s`. -/
inductive PyVal where
  | none : PyVal
  | bool : Bool → PyVal
  | int : Int → PyVal
  | str : String → PyVal
  | bytes : String → PyVal
  deriving DecidableEq

/-- Python `==` on the values above: booleans compare with integers as the
numbers 0 and 1 (`1 == True` holds in Python); values of unrelated types
compare unequal. -/
def pyEq : PyVal → PyVal → Bool
  | PyVal.none, PyVal.none => true
  | PyVal.bool a, PyVal.bool b => a == b
  | PyVal.bool a, PyVal.int b => (if a then (1 : Int) else 0) == b
  | PyVal.int a, PyVal.bool b => a == (if b then (1 : Int) else 0)
  | PyVal.int a, PyVal.int b => a == b
  | PyVal.str a, PyVal.str b => a == b
  | PyVal.bytes a, PyVal.bytes b => a == b
  | _, _ => false

/-- Python truthiness of the values above (`if self.stdin:` and friends). -/
def pyTruthy : PyVal → Bool
  | PyVal.none => false
  | PyVal.bool b => b
  | PyVal.int n => n != 0
  | PyVal.str s => s != ""
  | PyVal.bytes s => s != ""

/-- Python `isinstance(v, str)`. -/
def pyIsStr : PyVal → Bool
  | PyVal.str _ => true
  | _ => false

/-- Python `bytes.decode("utf-8")` applied to the stdin slot by
`TestBench.execute`: `bytes s` (the UTF-8 encoding of `s`) decodes back to
`s`.  `execute` only reaches the call when the slot holds bytes (with a
text value there `Popen.communicate` would already have failed before the
comparison), so other values are returned unchanged. -/
def pyDecode : PyVal → PyVal
  | PyVal.bytes s => PyVal.str s
  | v => v

/-- Decidable equality of `Except` results, so that concrete runs of the
embedded operations can be checked by `decide`. -/
instance {ε α : Type} [DecidableEq ε] [DecidableEq α] : DecidableEq (Except ε α) := fun x y =>
  match x, y with
  | Except.error a, Except.error b =>
    if h : a = b then Decidable.isTrue (by subst h; rfl)
    else Decidable.isFalse (by intro hh; apply h; cases hh; rfl)
  | Except.ok a, Except.ok b =>
    if h : a = b then Decidable.isTrue (by subst h; rfl)
    else Decidable.isFalse (by intro hh; apply h; cases hh; rfl)
  | Except.error _, Except.ok _ => Decidable.isFalse (by intro hh; cases hh)
  | Except.ok _, Except.error _ => Decidable.isFalse (by intro hh; cases hh)

/-- The test bench's mutable experiment specification: the fields set up by
`TestBench.__init__`.  `code`, `stdout` and `stderr` are dynamically typed
in the source; after a reset they hold `int 0`, `str ""` and `str ""`. -/
structure TestBench where
  cmd : List String
  stdin : PyVal
  code : PyVal
  stdout : PyVal
  stderr : PyVal
  files : List (String × PyVal)
  verbose : Bool
  deriving DecidableEq

def TestBench.CMD : Nat := 1

def TestBench.STDIN : Nat := 2

def TestBench.CODE : Nat := 4

def TestBench.STDOUT : Nat := 8

def TestBench.STDERR : Nat := 16

def TestBench.FILES : Nat := 32

def TestBench.ALL : Nat := 63

/-- `TestBench.reset`: resets the fields selected by the bit mask `what`
(Python tests each `what & FLAG` for truthiness, i.e. non-zero). -/
def TestBench.reset (tb : TestBench) (what : Nat) : TestBench :=
  let tb := if (what &&& TestBench.CMD) != 0 then { tb with cmd := [] } else tb
  let tb := if (what &&& TestBench.STDIN) != 0 then { tb with stdin := PyVal.none } else tb
  let tb := if (what &&& TestBench.CODE) != 0 then { tb with code := PyVal.int 0 } else tb
  let tb := if (what &&& TestBench.STDOUT) != 0 then { tb with stdout := PyVal.str "" } else tb
  let tb := if (what &&& TestBench.STDERR) != 0 then { tb with stderr := PyVal.str "" } else tb
  if (what &&& TestBench.FILES) != 0 then { tb with files := [] } else tb

/-- `TestBench.set_cmd`. -/
def TestBench.set_cmd (tb : TestBench) (cmd : List String) : TestBench :=
  { tb with cmd := cmd }

/-- Python `list.pop(i)`: a negative `i` counts from the end; an index out
of range raises IndexError, here `Option.none`. -/
def listPop (l : List α) (i : Int) : Option (List α) :=
  let j := if i < 0 then i + l.length else i
  if 0 ≤ j ∧ j < l.length then Option.some (l.eraseIdx j.toNat) else Option.none

/-- `TestBench.cmd_pop`: `index = Option.none` models the default argument
`None`.  The source guards on `if index:`, which is false both for `None`
and for the integer 0, so 0 falls into the pop-the-last-element branch. -/
def TestBench.cmd_pop (tb : TestBench) (index : Option Int) : Option TestBench :=
  match index with
  | Option.some n =>
    if n != 0 then (listPop tb.cmd n).map (fun c => { tb with cmd := c })
    else (listPop tb.cmd (-1)).map (fun c => { tb with cmd := c })
  | Option.none => (listPop tb.cmd (-1)).map (fun c => { tb with cmd := c })

/-- `TestBench.set_stdin`: stores `value.encode("utf-8")`. -/
def TestBench.set_stdin (tb : TestBench) (value : String) : TestBench :=
  { tb with stdin := PyVal.bytes value }

/-- `TestBench.set_expected`.  With `arg3 = Option.none` (the two-argument
shape) `arg1` is a field-selector mask and `arg2` the value; otherwise
`arg1` is the expected exit code and `arg2`, `arg3` the expected stdout
and stderr. -/
def TestBench.set_expected (tb : TestBench) (arg1 : Nat) (arg2 : PyVal)
    (arg3 : Option PyVal) : Except String TestBench :=
  match arg3 with
  | Option.none =>
    if (arg1 &&& TestBench.CODE) != 0 then Except.ok { tb with code := arg2 }
    else if (arg1 &&& TestBench.STDOUT) != 0 then Except.ok { tb with stdout := arg2 }
    else if (arg1 &&& TestBench.STDERR) != 0 then Except.ok { tb with stderr := arg2 }
    else Except.error "arg2 must be TestBench.CODE, TestBench.STDOUT or TestBench.STDERR."
  | Option.some v3 =>
    Except.ok { tb with code := PyVal.int arg1, stdout := arg2, stderr := v3 }

def TestBench.EXISTS : PyVal := PyVal.bool true

def TestBench.NOT_EXISTS : PyVal := PyVal.bool false

/-- `TestBench.add_file_check`: `mode not in (self.EXISTS, self.NOT_EXISTS)`
is a Python membership test, which compares with `==`. -/
def TestBench.add_file_check (tb : TestBench) (filename : String) (mode : PyVal) :
    Except String TestBench :=
  if !(pyEq mode TestBench.EXISTS || pyEq mode TestBench.NOT_EXISTS) && !(pyIsStr mode) then
    Except.error "content must be TestBench.EXISTS, TestBench.NOT_EXISTS or a string"
  else
    Except.ok { tb with files := tb.files ++ [(filename, mode)] }

/-- `TestBench._file_check`: the loop over the registered `(filename, mode)`
pairs, collecting every failed check in order.  The filesystem is a map
from path to the text contents of the regular file there (`Option.none`
when the path does not exist). -/
def TestBench.file_check (files : List (String × PyVal)) (fs : String → Option String) :
    List (String × String) :=
  match files with
  | [] => []
  | (filename, mode) :: rest =>
    (if pyEq mode TestBench.NOT_EXISTS then
      match fs filename with
      | Option.some _ => [(filename, "file exists")]
      | Option.none => []
    else
      match fs filename with
      | Option.none => [(filename, "file doesn't exist")]
      | Option.some actual_content =>
        if pyIsStr mode && !(pyEq mode (PyVal.str actual_content)) then
          [(filename, "wrong contents: >>>" ++ actual_content ++ "<<<")]
        else []) ++ TestBench.file_check rest fs

/-- `TestBench._has_one_not_of` (character membership taken over the
strings' character lists, so that it evaluates by kernel reduction). -/
def TestBench.has_one_not_of (string chars : String) : Bool :=
  string.data.any (fun ch => !(chars.data.contains ch))

/-- The character set used by `TestBench._fix`. -/
def safe_chars : String :=
  "abcdefghijklmnopqrstuvwxyzABCDEFGHIJKLMNOPQRSTUVWXYZ0123456789-_=+~:,./"

/-- `TestBench._fix`: quoting of one command token for display.
`Char.ofNat 39` is the single-quote character. -/
def TestBench.fix (string : String) : String :=
  if string != "" then
    if TestBench.has_one_not_of string safe_chars then
      if string.data.contains (Char.ofNat 39) then
        "\"" ++ string ++ "\""
      else
        "\x27" ++ string ++ "\x27"
    else string
  else "\x27\x27"

/-- The result of the child process as `execute` observes it: return code
and UTF-8-decoded stdout and stderr. -/
structure ProcResult where
  returncode : Int
  stdout : String
  stderr : String
  deriving DecidableEq

/-- The data carried by the `TestExperimentFailure` exception, in the order
`TestExperimentFailure.__init__` unpacks its positional arguments. -/
structure TestExperimentFailure where
  cmd : String
  stdin : PyVal
  exp_code : PyVal
  act_code : Int
  exp_stdout : PyVal
  act_stdout : String
  exp_stderr : PyVal
  act_stderr : String
  failed_files : List (String × String)
  deriving DecidableEq

/-- `TestBench.execute`, with the observed child result `P` and the
filesystem at file-check time passed in explicitly.  Returns the raised
`TestExperimentFailure` (if any) together with the bench state after the
call: on a mismatch the source first mutates `self.stdin` (decoding a
truthy value) and then raises. -/
def TestBench.execute (tb : TestBench) (P : ProcResult) (fs : String → Option String) :
    Except TestExperimentFailure Unit × TestBench :=
  let failed_files := TestBench.file_check tb.files fs
  if !(pyEq (PyVal.int P.returncode) tb.code)
      || !(pyEq (PyVal.str P.stdout) tb.stdout)
      || !(pyEq (PyVal.str P.stderr) tb.stderr)
      || !(failed_files.isEmpty) then
    let stdin2 := if pyTruthy tb.stdin then pyDecode tb.stdin else tb.stdin
    (Except.error
      { cmd := String.intercalate " " (tb.cmd.map TestBench.fix)
        stdin := stdin2
        exp_code := tb.code
        act_code := P.returncode
        exp_stdout := tb.stdout
        act_stdout := P.stdout
        exp_stderr := tb.stderr
        act_stderr := P.stderr
        failed_files := failed_files },
     { tb with stdin := stdin2 })
  else (Except.ok (), tb)

/-- A filesystem entry seen by the resource manager: a regular file with
its text contents, a directory, or a symbolic link with its target.  (A
symbolic link here is a link to a non-directory; `__exit__` removes links
with `os.remove`.) -/
inductive FSEntry where
  | file : String → FSEntry
  | dir : FSEntry
  | symlink : String → FSEntry
  deriving DecidableEq

/-- A filesystem as the resource manager sees it: entries keyed by path,
a path being its list of components, so `["d"]` is the parent directory of
`["d", "x"]`. -/
abbrev FS : Type := List (List String × FSEntry)

/-- Python `os.path.exists`. -/
def fsExists (fs : FS) (p : List String) : Bool :=
  fs.any (fun e => e.1 == p)

def fsLookup (fs : FS) (p : List String) : Option FSEntry :=
  (fs.find? (fun e => e.1 == p)).map (fun e => e.2)

/-- Python `os.path.isdir`. -/
def fsIsDir (fs : FS) (p : List String) : Bool :=
  match fsLookup fs p with
  | Option.some FSEntry.dir => true
  | _ => false

/-- A directory is non-empty when some other entry lies strictly below it. -/
def fsDirNonEmpty (fs : FS) (p : List String) : Bool :=
  fs.any (fun e => p.isPrefixOf e.1 && e.1 != p)

/-- `os.remove`, or an `os.rmdir` call that succeeded: drop the entry. -/
def fsRemove (fs : FS) (p : List String) : FS :=
  fs.filter (fun e => e.1 != p)

/-- Overwriting the regular file at `p` with the text `text`. -/
def fsSetContents (fs : FS) (p : List String) (text : String) : FS :=
  fs.map (fun e => if e.1 == p then (p, FSEntry.file text) else e)

/-- `TMPFileManager`: the deletion-tracking list `files` and the ownership
list `own_files`, each in registration order (`__enter__` starts both
empty). -/
structure TMPFileManager where
  files : List (List String)
  own_files : List (List String)
  deriving DecidableEq

/-- Python `print(*contents, file=f)` for a non-empty argument list: the
arguments joined by single spaces, then a newline. -/
def pyPrint (contents : List String) : String :=
  String.intercalate " " contents ++ "\n"

/-- `TMPFileManager.add_directory` (`os.makedirs(directory, 0o755)`; the
permission bits are not modelled). -/
def TMPFileManager.add_directory (m : TMPFileManager) (directory : List String)
    (fs : FS) : Except String (TMPFileManager × FS) :=
  if fsExists fs directory then
    Except.error "file/directory already exists"
  else
    Except.ok ({ m with files := m.files ++ [directory] },
               fs ++ [(directory, FSEntry.dir)])

/-- `TMPFileManager.add_file`: creates the file (`open(filename, "x")`),
writes `print(*contents, file=f)` when `contents` is non-empty, and
records the path in both `files` and `own_files`. -/
def TMPFileManager.add_file (m : TMPFileManager) (filename : List String)
    (contents : List String) (fs : FS) : Except String (TMPFileManager × FS) :=
  if fsExists fs filename then
    Except.error "file/directory already exists"
  else
    Except.ok ({ m with files := m.files ++ [filename],
                        own_files := m.own_files ++ [filename] },
               fs ++ [(filename,
                 FSEntry.file (if contents.isEmpty then "" else pyPrint contents))])

/-- `TMPFileManager.modify_file`: only a path in `own_files` may be
overwritten; then `open(filename, "w")` truncates and `print` writes the
contents when they are non-empty. -/
def TMPFileManager.modify_file (m : TMPFileManager) (filename : List String)
    (contents : List String) (fs : FS) : Except String FS :=
  if !(m.own_files.contains filename) then
    Except.error "can't overwrite unmanaged file"
  else if !(fsExists fs filename) then
    Except.error "file doesn't exist"
  else
    Except.ok (fsSetContents fs filename
      (if contents.isEmpty then "" else pyPrint contents))

/-- `TMPFileManager.unmanage_files`: empties the deletion-tracking list and
nothing else. -/
def TMPFileManager.unmanage_files (m : TMPFileManager) : TMPFileManager :=
  { m with files := [] }

/-- The loop body of `TMPFileManager.__exit__` over an explicit list of
paths: each path in order is skipped when it no longer exists, removed
with the non-recursive `os.rmdir` when it is a directory (on a non-empty
directory `os.rmdir` raises, aborting the remaining clean-up: first
component `true`), and removed with `os.remove` otherwise. -/
def tmpExitGo : List (List String) → FS → Bool × FS
  | [], fs => (false, fs)
  | f :: rest, fs =>
    if fsExists fs f then
      if fsIsDir fs f then
        if fsDirNonEmpty fs f then (true, fs)
        else tmpExitGo rest (fsRemove fs f)
      else tmpExitGo rest (fsRemove fs f)
    else tmpExitGo rest fs

/-- `TMPFileManager.__exit__`: `for f in reversed(self.files)`. -/
def TMPFileManager.exit (m : TMPFileManager) (fs : FS) : Bool × FS :=
  tmpExitGo m.files.reverse fs
/-- A test bench in its default state: the state `TestBench.__init__`
produces for a non-verbose bench. -/
def tbDefault : TestBench :=
  { cmd := [], stdin := PyVal.none, code := PyVal.int 0, stdout := PyVal.str "",
    stderr := PyVal.str "", files := [], verbose := false }

/-- C3: for every mask, `reset` returns each selected field (a field whose
selector bit is set in the mask) to its zero value — empty sequence for CMD
and FILES, none for STDIN, 0 for CODE, the empty string for STDOUT and
STDERR — and leaves every field not selected by the mask, as well as the
verbosity flag, unchanged.  ALL = 63 is the union of all six selectors. -/
theorem reset_selected_fields_zero_others_unchanged (tb : TestBench) (what : Nat) :
    (TestBench.reset tb what).cmd = (if (what &&& TestBench.CMD) != 0 then [] else tb.cmd)
    ∧ (TestBench.reset tb what).stdin
      = (if (what &&& TestBench.STDIN) != 0 then PyVal.none else tb.stdin)
    ∧ (TestBench.reset tb what).code
      = (if (what &&& TestBench.CODE) != 0 then PyVal.int 0 else tb.code)
    ∧ (TestBench.reset tb what).stdout
      = (if (what &&& TestBench.STDOUT) != 0 then PyVal.str "" else tb.stdout)
    ∧ (TestBench.reset tb what).stderr
      = (if (what &&& TestBench.STDERR) != 0 then PyVal.str "" else tb.stderr)
    ∧ (TestBench.reset tb what).files
      = (if (what &&& TestBench.FILES) != 0 then [] else tb.files)
    ∧ (TestBench.reset tb what).verbose = tb.verbose
    ∧ TestBench.ALL = TestBench.CMD ||| TestBench.STDIN ||| TestBench.CODE
        ||| TestBench.STDOUT ||| TestBench.STDERR ||| TestBench.FILES := by
  by_cases h1 : (what &&& TestBench.CMD) != 0 <;>
  by_cases h2 : (what &&& TestBench.STDIN) != 0 <;>
  by_cases h3 : (what &&& TestBench.CODE) != 0 <;>
  by_cases h4 : (what &&& TestBench.STDOUT) != 0 <;>
  by_cases h5 : (what &&& TestBench.STDERR) != 0 <;>
  by_cases h6 : (what &&& TestBench.FILES) != 0 <;>
    simp_all [TestBench.reset] <;> decide

/-- The bench on which the C5 divergence is shown: command line `["a", "b"]`. -/
def tbAB : TestBench := { tbDefault with cmd := ["a", "b"] }

/-- C5 (code bug): on the command line `["a", "b"]`, `cmd_pop(0)` removes
the LAST token, leaving `["a"]`, because the source guards on `if index:`
and the integer 0 is falsy in Python; the claim (and the function's own
docstring) require the token at position 0 to be removed, which would
leave `["b"]`. -/
theorem cmd_pop_zero_pops_last_not_first :
    TestBench.cmd_pop tbAB (Option.some 0) = Option.some { tbAB with cmd := ["a"] }
    ∧ ({ tbAB with cmd := ["a"] } : TestBench) ≠ { tbAB with cmd := ["b"] } := by
  decide

/-- C6 counterexample: the combined selector CODE ||| STDOUT (= 12) is not
exactly one of CODE, STDOUT, STDERR, yet the two-argument `set_expected`
does not raise a ConfigurationError: it sets the `code` field, because the
source only tests `arg1 & self.CODE`. -/
theorem set_expected_combined_selector_accepted :
    TestBench.set_expected tbDefault (TestBench.CODE ||| TestBench.STDOUT)
      (PyVal.int 7) Option.none
    = Except.ok { tbDefault with code := PyVal.int 7 }
    ∧ (TestBench.CODE ||| TestBench.STDOUT) ≠ TestBench.CODE
    ∧ (TestBench.CODE ||| TestBench.STDOUT) ≠ TestBench.STDOUT
    ∧ (TestBench.CODE ||| TestBench.STDOUT) ≠ TestBench.STDERR := by
  refine ⟨rfl, by decide, by decide, by decide⟩

/-- C6 (amended): in the two-argument shape, every selector mask is handled
by testing its bits with priority CODE, then STDOUT, then STDERR: a mask
containing the CODE bit sets exactly the code field, a mask without the
CODE bit but with the STDOUT bit sets exactly the stdout field, a mask with
neither but with the STDERR bit sets exactly the stderr field (so the exact
selectors CODE, STDOUT and STDERR each set their own field, while a
combined selector is NOT rejected), and a mask containing none of the three
bits fails with a ConfigurationError, modifying no field (the error is
raised before any assignment). -/
theorem set_expected_two_arg_selector (tb : TestBench) (v : PyVal) :
    (∀ arg1 : Nat, arg1 &&& TestBench.CODE ≠ 0 →
        TestBench.set_expected tb arg1 v Option.none = Except.ok { tb with code := v })
    ∧ (∀ arg1 : Nat, arg1 &&& TestBench.CODE = 0 → arg1 &&& TestBench.STDOUT ≠ 0 →
        TestBench.set_expected tb arg1 v Option.none = Except.ok { tb with stdout := v })
    ∧ (∀ arg1 : Nat, arg1 &&& TestBench.CODE = 0 → arg1 &&& TestBench.STDOUT = 0 →
        arg1 &&& TestBench.STDERR ≠ 0 →
        TestBench.set_expected tb arg1 v Option.none = Except.ok { tb with stderr := v })
    ∧ (∀ arg1 : Nat, arg1 &&& TestBench.CODE = 0 → arg1 &&& TestBench.STDOUT = 0 →
        arg1 &&& TestBench.STDERR = 0 →
        TestBench.set_expected tb arg1 v Option.none
          = Except.error "arg2 must be TestBench.CODE, TestBench.STDOUT or TestBench.STDERR.") := by
  refine ⟨?_, ?_, ?_, ?_⟩
  · intro arg1 h4
    simp [TestBench.set_expected, h4]
  · intro arg1 h4 h8
    simp [TestBench.set_expected, h4, h8]
  · intro arg1 h4 h8 h16
    simp [TestBench.set_expected, h4, h8, h16]
  · intro arg1 h4 h8 h16
    simp [TestBench.set_expected, h4, h8, h16]

/-- C6 witness: the combined selector STDOUT ||| STDERR (= 24) has no CODE
bit, so it sets the stdout field; the STDIN selector (= 2) carries none of
the CODE, STDOUT, STDERR bits, so the two-argument `set_expected` rejects
it. -/
theorem set_expected_two_arg_selector_witness :
    TestBench.set_expected tbDefault (TestBench.STDOUT ||| TestBench.STDERR)
      (PyVal.int 5) Option.none
      = Except.ok { tbDefault with stdout := PyVal.int 5 }
    ∧ TestBench.set_expected tbDefault TestBench.STDIN (PyVal.int 5) Option.none
      = Except.error "arg2 must be TestBench.CODE, TestBench.STDOUT or TestBench.STDERR." :=
  ⟨(set_expected_two_arg_selector tbDefault (PyVal.int 5)).2.1
      (TestBench.STDOUT ||| TestBench.STDERR) (by decide) (by decide),
   (set_expected_two_arg_selector tbDefault (PyVal.int 5)).2.2.2 TestBench.STDIN
      (by decide) (by decide) (by decide)⟩

/-- C7 counterexample: the integer 1 is none of MUST_EXIST (`True`),
MUST_NOT_EXIST (`False`) or a string, yet `add_file_check` accepts it and
appends the pair: the `not in` membership test compares with Python `==`,
and `1 == True` holds in Python. -/
theorem add_file_check_accepts_int_one :
    TestBench.add_file_check tbDefault "f" (PyVal.int 1)
      = Except.ok { tbDefault with files := [("f", PyVal.int 1)] }
    ∧ PyVal.int 1 ≠ TestBench.EXISTS
    ∧ PyVal.int 1 ≠ TestBench.NOT_EXISTS
    ∧ pyIsStr (PyVal.int 1) = false := by
  refine ⟨rfl, by decide, by decide, by decide⟩

/-- C7 (amended): `add_file_check` appends the `(path, mode)` pair exactly
when the mode is MUST_EXIST (`True`), MUST_NOT_EXIST (`False`), a value
Python-equal to one of them (the integers 1 and 0), or a string; every
other value fails with a ConfigurationError, and the raise happens before
the append, so the check list is unchanged. -/
theorem add_file_check_accepted_values (tb : TestBench) (f : String) (mode : PyVal) :
    (TestBench.add_file_check tb f mode
        = Except.ok { tb with files := tb.files ++ [(f, mode)] }
      ↔ (mode = PyVal.bool true ∨ mode = PyVal.bool false
          ∨ mode = PyVal.int 1 ∨ mode = PyVal.int 0 ∨ ∃ s, mode = PyVal.str s))
    ∧ ((∃ msg, TestBench.add_file_check tb f mode = Except.error msg)
      ↔ ¬(mode = PyVal.bool true ∨ mode = PyVal.bool false
          ∨ mode = PyVal.int 1 ∨ mode = PyVal.int 0 ∨ ∃ s, mode = PyVal.str s)) := by
  cases mode with
  | none =>
    simp [TestBench.add_file_check, pyEq, pyIsStr, TestBench.EXISTS, TestBench.NOT_EXISTS]
  | bool b =>
    cases b <;>
      simp [TestBench.add_file_check, pyEq, pyIsStr, TestBench.EXISTS, TestBench.NOT_EXISTS]
  | int n =>
    by_cases h1 : n = 1 <;> by_cases h0 : n = 0 <;>
      simp [TestBench.add_file_check, pyEq, pyIsStr, TestBench.EXISTS, TestBench.NOT_EXISTS,
        h1, h0]
  | str s =>
    simp [TestBench.add_file_check, pyEq, pyIsStr, TestBench.EXISTS, TestBench.NOT_EXISTS]
  | bytes s =>
    simp [TestBench.add_file_check, pyEq, pyIsStr, TestBench.EXISTS, TestBench.NOT_EXISTS]
/-- C2: the file check evaluates each registered `(path, expectation)` pair
independently and collects all failures in order, without short-circuiting
(the check of a concatenation is the concatenation of the checks); a
MUST_NOT_EXIST check fails (reason "file exists") iff the path exists; a
MUST_EXIST check fails (reason "file doesn't exist") iff the path does not
exist; a literal-string check fails with reason "file doesn't exist" when
the path is absent and otherwise fails iff the file's full contents differ
from the expectation; and the same MUST_EXIST check registered twice
against a missing file yields exactly two independently reported
failures. -/
theorem file_check_pairs_independent (fs : String → Option String) :
    (∀ l1 l2, TestBench.file_check (l1 ++ l2) fs
        = TestBench.file_check l1 fs ++ TestBench.file_check l2 fs)
    ∧ (∀ p, TestBench.file_check [(p, TestBench.NOT_EXISTS)] fs
        = if (fs p).isSome then [(p, "file exists")] else [])
    ∧ (∀ p, TestBench.file_check [(p, TestBench.EXISTS)] fs
        = if (fs p).isSome then [] else [(p, "file doesn't exist")])
    ∧ (∀ p s, TestBench.file_check [(p, PyVal.str s)] fs
        = match fs p with
          | Option.none => [(p, "file doesn't exist")]
          | Option.some c =>
            if c ≠ s then [(p, "wrong contents: >>>" ++ c ++ "<<<")] else [])
    ∧ (∀ p, fs p = Option.none →
        TestBench.file_check [(p, TestBench.EXISTS), (p, TestBench.EXISTS)] fs
          = [(p, "file doesn't exist"), (p, "file doesn't exist")]) := by
  refine ⟨?_, ?_, ?_, ?_, ?_⟩
  · intro l1 l2
    induction l1 with
    | nil => rfl
    | cons hd tl ih =>
      obtain ⟨filename, mode⟩ := hd
      simp only [List.cons_append, TestBench.file_check, List.append_eq, ih,
        List.append_assoc]
  · intro p
    simp only [TestBench.file_check]
    cases h : fs p <;> simp [TestBench.NOT_EXISTS, pyEq]
  · intro p
    simp only [TestBench.file_check]
    cases h : fs p <;> simp [TestBench.EXISTS, TestBench.NOT_EXISTS, pyEq, pyIsStr]
  · intro p s
    simp only [TestBench.file_check]
    cases h : fs p with
    | none => simp [TestBench.NOT_EXISTS, pyEq]
    | some c =>
      by_cases hc : c = s
      · subst hc; simp [TestBench.NOT_EXISTS, pyEq, pyIsStr]
      · have hsc : ¬s = c := fun h2 => hc h2.symm
        simp [TestBench.NOT_EXISTS, pyEq, pyIsStr, hc, hsc]
  · intro p hp
    simp [TestBench.file_check, TestBench.EXISTS, TestBench.NOT_EXISTS, pyEq, hp]

/-- C2 witness: two identical MUST_EXIST checks against a missing file
produce exactly two failures. -/
theorem file_check_pairs_independent_witness :
    TestBench.file_check [("f", TestBench.EXISTS), ("f", TestBench.EXISTS)]
      (fun _ => Option.none)
    = [("f", "file doesn't exist"), ("f", "file doesn't exist")] :=
  (file_check_pairs_independent (fun _ => Option.none)).2.2.2.2 "f" rfl

/-- C1: `execute` returns normally iff the child's exit code, stdout and
stderr each equal the configured expectation and the failed-file-check
list is empty; on any mismatch the raised `TestExperimentFailure` carries
the process's true exit code, stdout and stderr in its `act_*` fields, the
configured expectations in its `exp_*` fields, and the failed file
checks. -/
theorem execute_ok_iff_all_match (tb : TestBench) (P : ProcResult)
    (fs : String → Option String) :
    ((TestBench.execute tb P fs).1 = Except.ok ()
      ↔ (pyEq (PyVal.int P.returncode) tb.code = true
          ∧ pyEq (PyVal.str P.stdout) tb.stdout = true
          ∧ pyEq (PyVal.str P.stderr) tb.stderr = true
          ∧ TestBench.file_check tb.files fs = []))
    ∧ (∀ e, (TestBench.execute tb P fs).1 = Except.error e →
        e.act_code = P.returncode ∧ e.act_stdout = P.stdout ∧ e.act_stderr = P.stderr
          ∧ e.exp_code = tb.code ∧ e.exp_stdout = tb.stdout ∧ e.exp_stderr = tb.stderr
          ∧ e.failed_files = TestBench.file_check tb.files fs) := by
  cases hb1 : pyEq (PyVal.int P.returncode) tb.code <;>
  cases hb2 : pyEq (PyVal.str P.stdout) tb.stdout <;>
  cases hb3 : pyEq (PyVal.str P.stderr) tb.stderr <;>
  cases hb4 : (TestBench.file_check tb.files fs).isEmpty <;>
    simp_all [TestBench.execute, List.isEmpty_iff, List.isEmpty_eq_false]
/-- The failure record produced by the concrete run in the C1 witness:
expected exit code 1, actual 0, everything else matching. -/
def failW : TestExperimentFailure :=
  { cmd := "", stdin := PyVal.none, exp_code := PyVal.int 1, act_code := 0,
    exp_stdout := PyVal.str "", act_stdout := "", exp_stderr := PyVal.str "",
    act_stderr := "", failed_files := [] }

/-- C1 witness: a run whose exit code 0 mismatches the expected code 1
raises a failure whose fields carry the true and the configured values. -/
theorem execute_ok_iff_all_match_witness :
    failW.act_code = 0 ∧ failW.act_stdout = "" ∧ failW.act_stderr = ""
    ∧ failW.exp_code = PyVal.int 1 ∧ failW.exp_stdout = PyVal.str ""
    ∧ failW.exp_stderr = PyVal.str ""
    ∧ failW.failed_files = TestBench.file_check [] (fun _ => Option.none) :=
  (execute_ok_iff_all_match { tbDefault with code := PyVal.int 1 }
    { returncode := 0, stdout := "", stderr := "" } (fun _ => Option.none)).2 failW rfl

/-- C9: when `execute` raises while a non-empty stdin byte string is
configured, the engine's stored stdin is replaced by its UTF-8-decoded
string form before the exception is raised, so a subsequent `execute` on
the same bench no longer holds the byte encoding; a successful `execute`
leaves the whole bench unchanged, and no field other than `stdin` is ever
modified by `execute`. -/
theorem execute_mutates_only_stdin (tb : TestBench) (P : ProcResult)
    (fs : String → Option String) :
    (∀ s e, tb.stdin = PyVal.bytes s → s ≠ "" →
        (TestBench.execute tb P fs).1 = Except.error e →
        (TestBench.execute tb P fs).2 = { tb with stdin := PyVal.str s })
    ∧ ((TestBench.execute tb P fs).1 = Except.ok () → (TestBench.execute tb P fs).2 = tb)
    ∧ (TestBench.execute tb P fs).2.cmd = tb.cmd
    ∧ (TestBench.execute tb P fs).2.code = tb.code
    ∧ (TestBench.execute tb P fs).2.stdout = tb.stdout
    ∧ (TestBench.execute tb P fs).2.stderr = tb.stderr
    ∧ (TestBench.execute tb P fs).2.files = tb.files
    ∧ (TestBench.execute tb P fs).2.verbose = tb.verbose := by
  cases hcnd : (!(pyEq (PyVal.int P.returncode) tb.code)
      || !(pyEq (PyVal.str P.stdout) tb.stdout)
      || !(pyEq (PyVal.str P.stderr) tb.stderr)
      || !((TestBench.file_check tb.files fs).isEmpty)) with
  | false =>
    refine ⟨?_, ?_, ?_, ?_, ?_, ?_, ?_, ?_⟩ <;> simp [TestBench.execute, hcnd]
  | true =>
    refine ⟨?_, ?_, ?_, ?_, ?_, ?_, ?_, ?_⟩
    · intro s e hs hne _
      simp [TestBench.execute, hcnd, hs, pyTruthy, pyDecode, hne]
    · intro hok
      simp [TestBench.execute, hcnd] at hok
    all_goals simp [TestBench.execute, hcnd]

/-- The bench for the C9 witness: stdin configured to the byte encoding of
"hi" (as `set_stdin "hi"` stores it), expected exit code 1. -/
def tbStdinW : TestBench :=
  TestBench.set_stdin { tbDefault with code := PyVal.int 1 } "hi"

/-- The failure record produced by the concrete run in the C9 witness; its
stdin slot already holds the decoded string. -/
def failSW : TestExperimentFailure :=
  { cmd := "", stdin := PyVal.str "hi", exp_code := PyVal.int 1, act_code := 0,
    exp_stdout := PyVal.str "", act_stdout := "", exp_stderr := PyVal.str "",
    act_stderr := "", failed_files := [] }

/-- C9 witness: after a failing run with stdin bytes "hi", the bench holds
the decoded string "hi" in its stdin slot. -/
theorem execute_mutates_only_stdin_witness :
    (TestBench.execute tbStdinW { returncode := 0, stdout := "", stderr := "" }
      (fun _ => Option.none)).2 = { tbStdinW with stdin := PyVal.str "hi" } :=
  (execute_mutates_only_stdin tbStdinW { returncode := 0, stdout := "", stderr := "" }
    (fun _ => Option.none)).1 "hi" failSW rfl (by decide) rfl
/-- An entry that exists after a removal existed before it. -/
lemma fsExists_fsRemove {fs : FS} {f p : List String}
    (h : fsExists (fsRemove fs f) p = true) : fsExists fs p = true := by
  rcases List.any_eq_true.mp h with ⟨e, he, hp⟩
  exact List.any_eq_true.mpr ⟨e, (List.mem_filter.mp he).1, hp⟩

/-- The removed entry no longer exists. -/
lemma fsExists_fsRemove_self (fs : FS) (p : List String) :
    fsExists (fsRemove fs p) p = false := by
  rw [Bool.eq_false_iff]
  intro h
  rcases List.any_eq_true.mp h with ⟨e, he, hp⟩
  have h2 := (List.mem_filter.mp he).2
  simp only [bne_iff_ne] at h2
  exact h2 (by simpa using hp)

/-- Removal preserves absence. -/
lemma fsExists_fsRemove_absent {fs : FS} {f p : List String}
    (h : fsExists fs p = false) : fsExists (fsRemove fs f) p = false := by
  rw [Bool.eq_false_iff]
  intro ht
  have := fsExists_fsRemove ht
  rw [h] at this
  cases this

/-- The clean-up loop never creates entries: an absent path stays absent. -/
lemma tmpExitGo_preserves_absent (l : List (List String)) :
    ∀ fs : FS, ∀ p : List String, fsExists fs p = false →
      fsExists (tmpExitGo l fs).2 p = false := by
  induction l with
  | nil => intro fs p h; exact h
  | cons f rest ih =>
    intro fs p h
    unfold tmpExitGo
    by_cases h1 : fsExists fs f = true
    · by_cases h2 : fsIsDir fs f = true
      · by_cases h3 : fsDirNonEmpty fs f = true
        · simp only [h1, h2, h3, if_true]; exact h
        · rw [Bool.not_eq_true] at h3
          simp only [h1, h2, h3, if_true, Bool.false_eq_true, if_false]
          exact ih _ p (fsExists_fsRemove_absent h)
      · rw [Bool.not_eq_true] at h2
        simp only [h1, h2, if_true, Bool.false_eq_true, if_false]
        exact ih _ p (fsExists_fsRemove_absent h)
    · rw [Bool.not_eq_true] at h1
      simp only [h1, Bool.false_eq_true, if_false]
      exact ih fs p h

/-- When the clean-up loop runs to completion without an abort, every path
of its work list no longer exists afterwards. -/
lemma tmpExitGo_cleanup (l : List (List String)) :
    ∀ fs : FS, (tmpExitGo l fs).1 = false →
      ∀ p ∈ l, fsExists (tmpExitGo l fs).2 p = false := by
  induction l with
  | nil => intro fs _ p hp; cases hp
  | cons f rest ih =>
    intro fs h p hp
    unfold tmpExitGo at h ⊢
    by_cases h1 : fsExists fs f = true
    · by_cases h2 : fsIsDir fs f = true
      · by_cases h3 : fsDirNonEmpty fs f = true
        · simp only [h1, h2, h3, if_true] at h
          cases h
        · rw [Bool.not_eq_true] at h3
          simp only [h1, h2, h3, if_true, Bool.false_eq_true, if_false] at h ⊢
          rcases List.mem_cons.mp hp with hpf | hpr
          · subst hpf
            exact tmpExitGo_preserves_absent rest _ p (fsExists_fsRemove_self fs p)
          · exact ih _ h p hpr
      · rw [Bool.not_eq_true] at h2
        simp only [h1, h2, if_true, Bool.false_eq_true, if_false] at h ⊢
        rcases List.mem_cons.mp hp with hpf | hpr
        · subst hpf
          exact tmpExitGo_preserves_absent rest _ p (fsExists_fsRemove_self fs p)
        · exact ih _ h p hpr
    · rw [Bool.not_eq_true] at h1
      simp only [h1, Bool.false_eq_true, if_false] at h ⊢
      rcases List.mem_cons.mp hp with hpf | hpr
      · subst hpf
        exact tmpExitGo_preserves_absent rest fs p h1
      · exact ih fs h p hpr

/-- C4 counterexample: a directory the manager created (`add_directory`)
that an external artifact left non-empty still exists after scope exit:
the non-recursive delete raises on it and aborts the clean-up, refuting
the claim that after exit every manager-created entry that still existed
no longer exists. -/
theorem tmp_exit_nonempty_dir_survives :
    TMPFileManager.add_directory ⟨[], []⟩ ["d"] []
      = Except.ok (⟨[["d"]], []⟩, [(["d"], FSEntry.dir)])
    ∧ (TMPFileManager.exit ⟨[["d"]], []⟩
        [(["d"], FSEntry.dir), (["d", "x"], FSEntry.file "leftover")]).1 = true
    ∧ fsExists (TMPFileManager.exit ⟨[["d"]], []⟩
        [(["d"], FSEntry.dir), (["d", "x"], FSEntry.file "leftover")]).2 ["d"] = true := by
  refine ⟨rfl, by decide, by decide⟩

/-- C4 (amended): scope exit processes the tracked entries in reverse
registration order (the last-registered entry is handled first); an entry
that no longer exists at exit time is skipped silently; a directory is
removed with the non-recursive delete, which on a non-empty directory
raises and aborts the remaining clean-up; and whenever no such abort
occurs, every tracked entry no longer exists after exit. -/
theorem tmp_exit_cleanup (m : TMPFileManager) (fs : FS) :
    ((TMPFileManager.exit m fs).1 = false →
      ∀ p ∈ m.files, fsExists (TMPFileManager.exit m fs).2 p = false)
    ∧ (∀ own : List (List String), ∀ l : List (List String), ∀ f : List String, ∀ fs2 : FS,
        fsExists fs2 f = false →
        TMPFileManager.exit ⟨l ++ [f], own⟩ fs2 = TMPFileManager.exit ⟨l, own⟩ fs2)
    ∧ (∀ own : List (List String), ∀ l : List (List String), ∀ f : List String, ∀ fs2 : FS,
        fsExists fs2 f = true → fsIsDir fs2 f = false →
        TMPFileManager.exit ⟨l ++ [f], own⟩ fs2
          = TMPFileManager.exit ⟨l, own⟩ (fsRemove fs2 f))
    ∧ (∀ own : List (List String), ∀ l : List (List String), ∀ f : List String, ∀ fs2 : FS,
        fsExists fs2 f = true → fsIsDir fs2 f = true → fsDirNonEmpty fs2 f = true →
        TMPFileManager.exit ⟨l ++ [f], own⟩ fs2 = (true, fs2)) := by
  refine ⟨?_, ?_, ?_, ?_⟩
  · intro h p hp
    exact tmpExitGo_cleanup m.files.reverse fs h p (List.mem_reverse.mpr hp)
  · intro own l f fs2 hf
    simp only [TMPFileManager.exit, List.reverse_append, List.reverse_singleton,
      List.singleton_append, tmpExitGo, hf, Bool.false_eq_true, if_false]
  · intro own l f fs2 hf hd
    simp only [TMPFileManager.exit, List.reverse_append, List.reverse_singleton,
      List.singleton_append, tmpExitGo, hf, hd, if_true, Bool.false_eq_true, if_false]
  · intro own l f fs2 hf hd hne
    simp only [TMPFileManager.exit, List.reverse_append, List.reverse_singleton,
      List.singleton_append, tmpExitGo, hf, hd, hne, if_true]

/-- C4 witness: with two tracked plain files and one already-removed entry,
exit aborts nothing, and a tracked file is gone afterwards. -/
theorem tmp_exit_cleanup_witness :
    fsExists (TMPFileManager.exit ⟨[["a"], ["gone"], ["b"]], []⟩
      [(["a"], FSEntry.file ""), (["b"], FSEntry.file "")]).2 ["a"] = false :=
  (tmp_exit_cleanup ⟨[["a"], ["gone"], ["b"]], []⟩
    [(["a"], FSEntry.file ""), (["b"], FSEntry.file "")]).1 (by decide) ["a"] (by decide)

/-- C8 counterexample: `print` appends a newline, so `add_file` on the text
"hello" creates a file whose contents are "hello\n", not exactly the given
text. -/
theorem add_file_appends_newline :
    TMPFileManager.add_file ⟨[], []⟩ ["f"] ["hello"] []
      = Except.ok (⟨[["f"]], [["f"]]⟩, [(["f"], FSEntry.file "hello\n")])
    ∧ ("hello\n" : String) ≠ "hello" :=
  ⟨rfl, by decide⟩

/-- C8 (amended): `add_file` fails when the path exists; otherwise it
creates the file — whose contents are the given text followed by a newline
(several content arguments joined by single spaces), or empty when no
contents are given — and records the path as both tracked and own;
`modify_file` on an own, still-existing path overwrites the contents in
the same `print` format, and fails on a path not created via `add_file`. -/
theorem add_file_modify_file_contents (m : TMPFileManager)
    (p : List String) (contents : List String) (fs : FS) :
    (fsExists fs p = true →
      TMPFileManager.add_file m p contents fs
        = Except.error "file/directory already exists")
    ∧ (fsExists fs p = false →
        TMPFileManager.add_file m p contents fs
          = Except.ok ({ files := m.files ++ [p], own_files := m.own_files ++ [p] },
              fs ++ [(p, FSEntry.file
                (if contents.isEmpty then "" else pyPrint contents))]))
    ∧ (m.own_files.contains p = true → fsExists fs p = true →
        TMPFileManager.modify_file m p contents fs
          = Except.ok (fsSetContents fs p
              (if contents.isEmpty then "" else pyPrint contents)))
    ∧ (m.own_files.contains p = false →
        TMPFileManager.modify_file m p contents fs
          = Except.error "can't overwrite unmanaged file") := by
  refine ⟨?_, ?_, ?_, ?_⟩
  · intro h; simp [TMPFileManager.add_file, h]
  · intro h; simp [TMPFileManager.add_file, h]
  · intro hc hex
    have hc2 : p ∈ m.own_files := by simpa using hc
    simp [TMPFileManager.modify_file, hc2, hex]
  · intro hc
    have hc2 : p ∉ m.own_files := by simpa using hc
    simp [TMPFileManager.modify_file, hc2]

/-- C8 witness: creating a fresh file with no contents yields an empty
file, tracked and own. -/
theorem add_file_modify_file_contents_witness :
    TMPFileManager.add_file ⟨[], []⟩ ["g"] [] []
      = Except.ok (⟨[["g"]], [["g"]]⟩, [(["g"], FSEntry.file "")]) :=
  (add_file_modify_file_contents ⟨[], []⟩ ["g"] [] []).2.1 rfl

/-- C10: `unmanage_files` clears only the deletion-tracking list, not the
ownership list: afterwards scope exit deletes nothing (it returns the
filesystem unchanged, with no abort), yet every file created via
`add_file` stays eligible for `modify_file`, which still succeeds on an
existing own file instead of failing with the unmanaged-file error. -/
theorem unmanage_files_keeps_ownership (m : TMPFileManager) (fs : FS)
    (p : List String) (contents : List String) :
    (TMPFileManager.unmanage_files m).own_files = m.own_files
    ∧ (TMPFileManager.unmanage_files m).files = []
    ∧ TMPFileManager.exit (TMPFileManager.unmanage_files m) fs = (false, fs)
    ∧ (m.own_files.contains p = true → fsExists fs p = true →
        TMPFileManager.modify_file (TMPFileManager.unmanage_files m) p contents fs
          = Except.ok (fsSetContents fs p
              (if contents.isEmpty then "" else pyPrint contents))) := by
  refine ⟨rfl, rfl, rfl, ?_⟩
  intro hc hex
  have hc2 : p ∈ m.own_files := by simpa using hc
  simp [TMPFileManager.modify_file, TMPFileManager.unmanage_files, hc2, hex]

/-- C10 witness: after `unmanage_files`, `modify_file` still overwrites a
file the manager created. -/
theorem unmanage_files_keeps_ownership_witness :
    TMPFileManager.modify_file (TMPFileManager.unmanage_files ⟨[["h"]], [["h"]]⟩)
      ["h"] ["new"] [(["h"], FSEntry.file "old\n")]
    = Except.ok [(["h"], FSEntry.file "new\n")] :=
  (unmanage_files_keeps_ownership ⟨[["h"]], [["h"]]⟩ [(["h"], FSEntry.file "old\n")]
    ["h"] ["new"]).2.2.2 rfl rfl
